import Mathlib

/-!
# Verification of the lawyer-marketplace onboarding core

A shallow embedding of the domain layer of the marketplace backend
(client onboarding, lawyer multi-step onboarding, account role/ban
management) together with proofs of the behavioural properties stated
in the specification.

Conventions of the embedding:
* TypeScript methods that `throw` become functions into `Except`.
  Methods that mutate `this` return `Except (DomainError × State) State`:
  the error case carries the state of the object at the moment the
  exception was raised (assignments executed before the `throw` are
  visible in that state, mirroring JavaScript's in-place mutation).
* `Date`-based clocks (`new Date().getFullYear()`) become an explicit
  `currentYear` parameter; entity timestamps (`createdAt`/`updatedAt`,
  `touch()`) carry no business meaning and are omitted.
* Repository collaborators are modelled by their observable state: the
  specialization catalog is the list of ids stored in the catalog table
  (primary-key column, hence no duplicates), `findByUserId` is the
  optional already-existing profile, and calls issued to the repository
  by a use case are returned explicitly as a trace.
* JavaScript string falsiness (`!s`) is `String.isEmpty`; `trim`,
  `toLowerCase`, `length` map to their Lean counterparts (identical on
  the ASCII data the system handles).
-/

/-- Abstract error taxonomy of the domain layer: one constructor per
exception class observed in the source, each carrying its message. -/
inductive DomainError where
  | validation (msg : String)
  | invalidOnboardingStep (msg : String)
  | incompleteOnboarding (msg : String)
  | unauthorized (msg : String)
  | clientAlreadyExists (msg : String)
  | forbidden (msg : String)
  deriving Repr, DecidableEq

/-- `OnboardingStep` union type of the Lawyer aggregate. -/
inductive OnboardingStep where
  | basic_info
  | credentials
  | specializations
  | submitted
  deriving Repr, DecidableEq

/-- Position of a step in the linear onboarding order
`basic_info < credentials < specializations < submitted`. -/
def OnboardingStep.idx : OnboardingStep → Nat
  | .basic_info => 0
  | .credentials => 1
  | .specializations => 2
  | .submitted => 3

/-- `ApplicationStatus` union type of the Lawyer aggregate. -/
inductive ApplicationStatus where
  | pending
  | approved
  | rejected
  | revision
  deriving Repr, DecidableEq

instance {ε α : Type} [DecidableEq ε] [DecidableEq α] :
    DecidableEq (Except ε α) := fun a b =>
  match a, b with
  | .ok x, .ok y =>
    if h : x = y then isTrue (by rw [h])
    else isFalse (fun hc => h (Except.ok.inj hc))
  | .error x, .error y =>
    if h : x = y then isTrue (by rw [h])
    else isFalse (fun hc => h (Except.error.inj hc))
  | .ok _, .error _ => isFalse (fun hc => Except.noConfusion hc)
  | .error _, .ok _ => isFalse (fun hc => Except.noConfusion hc)

/-! ### JavaScript string primitives

Character-list implementations of the JavaScript string methods the
source uses (`trim`, `toLowerCase`, and the split performed by the
email regex).  On the ASCII data this system handles they agree with
the JS originals; the list form lets every definition evaluate by
kernel reduction. -/

/-- `String.prototype.trim`: strip leading and trailing whitespace. -/
def jsTrim (s : String) : String :=
  ⟨((s.data.dropWhile Char.isWhitespace).reverse.dropWhile
      Char.isWhitespace).reverse⟩

/-- `String.prototype.toLowerCase`. -/
def jsToLower (s : String) : String :=
  ⟨s.data.map Char.toLower⟩

/-- Split a character list at every occurrence of `sep` (the
separator is dropped; `n` separators yield `n + 1` chunks). -/
def splitAtChar (sep : Char) : List Char → List (List Char)
  | [] => [[]]
  | c :: cs =>
    match splitAtChar sep cs with
    | [] => if c = sep then [[], []] else [[c]]
    | p :: ps => if c = sep then [] :: p :: ps else (c :: p) :: ps

/-! ## Value objects -/

/-- The test of `Email`'s regex `^[^\s@]+@[^\s@]+\.[^\s@]+$`: exactly
one `@`; a non-empty whitespace-free local part; a whitespace-free
domain containing a `.` that is neither its first nor its last
character. -/
def emailRegexTest (s : String) : Bool :=
  match splitAtChar '@' s.data with
  | [l, r] =>
    !l.isEmpty && l.all (fun c => !c.isWhitespace) &&
    !r.isEmpty && r.all (fun c => !c.isWhitespace) &&
    ((r.drop 1).dropLast.contains '.')
  | _ => false

/-- Email value object: a validated, normalized address. -/
structure Email where
  value : String
  deriving Repr, DecidableEq

/-- `Email.create`: rejects strings failing the format regex, stores
the address lowercased and trimmed. -/
def Email.create (email : String) : Except DomainError Email :=
  if !emailRegexTest email then
    .error (.validation "Invalid email format")
  else
    .ok ⟨jsTrim (jsToLower email)⟩

/-- Location value object of the client domain (`{state, country}`
variant). -/
structure Location where
  state : String
  country : String
  deriving Repr, DecidableEq

/-- `Location.create`: country and state must be non-blank; both are
stored trimmed. -/
def Location.create (state country : String) : Except DomainError Location :=
  if country.isEmpty || (jsTrim country).isEmpty then
    .error (.validation "Country is required")
  else if state.isEmpty || (jsTrim state).isEmpty then
    .error (.validation "State is required")
  else
    .ok ⟨jsTrim state, jsTrim country⟩

/-- BarCredentials value object.  Its `create` is typed
`(barNumber: string, issueDate: string, expiryDate?: string)`; every
caller in this repository passes `(barNumber, barAssociation,
yearOfBarAdmission)` positionally, so the `expiryDate` slot holds the
(numeric) year of bar admission at runtime and is modelled as
`Option Int`. -/
structure BarCredentials where
  barNumber : String
  issueDate : String
  expiryDate : Option Int
  deriving Repr, DecidableEq

/-- `BarCredentials.create`: bar number of trimmed length ≥ 5 and a
truthy (non-empty) issue date; bar number stored trimmed. -/
def BarCredentials.create (barNumber issueDate : String)
    (expiryDate : Option Int) : Except DomainError BarCredentials :=
  if barNumber.isEmpty || (jsTrim barNumber).length < 5 then
    .error (.validation "Bar number must be at least 5 characters")
  else if issueDate.isEmpty then
    .error (.validation "Issue date is required")
  else
    .ok ⟨jsTrim barNumber, issueDate, expiryDate⟩

/-- Education value object. -/
structure Education where
  school : String
  graduationYear : Int
  deriving Repr, DecidableEq

/-- `Education.create`; `currentYear` is the explicit clock replacing
`new Date().getFullYear()`. -/
def Education.create (currentYear : Int) (school : String)
    (graduationYear : Int) : Except DomainError Education :=
  if school.isEmpty || (jsTrim school).length < 3 then
    .error (.validation "Law school name must be at least 3 characters")
  else if graduationYear > currentYear then
    .error (.validation "Graduation year cannot be in the future")
  else if graduationYear < 1900 then
    .error (.validation "Invalid graduation year")
  else
    .ok ⟨jsTrim school, graduationYear⟩

/-- Role value object wrapping one of `admin`, `lawyer`, `client`. -/
structure Role where
  value : String
  deriving Repr, DecidableEq

/-- `Role.create`: validates the role string. -/
def Role.create (role : String) : Except DomainError Role :=
  if ["admin", "lawyer", "client"].contains role then
    .ok ⟨role⟩
  else
    .error (.validation
      ("Invalid role: " ++ role ++ ". Must be one of: admin, lawyer, client"))

/-! ## Client aggregate -/

/-- `ClientProps` interface. -/
structure ClientProps where
  userId : String
  name : String
  phoneNumber : Option String
  location : Location
  company : Option String
  specializationIds : List String
  onboardingCompleted : Bool
  deriving Repr, DecidableEq

/-- Client aggregate root state. -/
structure Client where
  id : String
  userId : String
  name : String
  phoneNumber : Option String
  location : Location
  company : Option String
  specializationIds : List String
  onboardingCompleted : Bool
  deriving Repr, DecidableEq

/-- `Client.validateProps`: userId non-blank, trimmed name ≥ 2 chars,
between 1 and 3 specializations.  Checks run in source order, so the
first failing rule determines the message. -/
def Client.validateProps (props : ClientProps) : Except DomainError Unit :=
  if props.userId.isEmpty || (jsTrim props.userId).isEmpty then
    .error (.validation "User ID is required")
  else if props.name.isEmpty || (jsTrim props.name).length < 2 then
    .error (.validation "Name must be at least 2 characters")
  else if props.specializationIds.length = 0 then
    .error (.validation "At least one specialization is required")
  else if props.specializationIds.length > 3 then
    .error (.validation "Maximum 3 specializations allowed")
  else
    .ok ()

/-- `Client.create`: validates, then constructs with
`onboardingCompleted` forced to `false`. -/
def Client.create (id : String) (props : ClientProps) :
    Except DomainError Client :=
  match Client.validateProps props with
  | .error e => .error e
  | .ok () =>
    .ok { id := id
          userId := props.userId
          name := props.name
          phoneNumber := props.phoneNumber
          location := props.location
          company := props.company
          specializationIds := props.specializationIds
          onboardingCompleted := false }

/-- `Client.reconstitute`: rebuilds from persistence, skipping
validation. -/
def Client.reconstitute (id : String) (props : ClientProps) : Client :=
  { id := id
    userId := props.userId
    name := props.name
    phoneNumber := props.phoneNumber
    location := props.location
    company := props.company
    specializationIds := props.specializationIds
    onboardingCompleted := props.onboardingCompleted }

/-- `Client.completeOnboarding`: idempotency guard, then the
non-empty-specializations rule, then the flag flips.  Both throws
precede any mutation, so the error carries the unchanged state. -/
def Client.completeOnboarding (c : Client) :
    Except (DomainError × Client) Client :=
  if c.onboardingCompleted then
    .error (.validation "Onboarding already completed", c)
  else if c.specializationIds.length = 0 then
    .error (.validation "Specializations are required to complete onboarding", c)
  else
    .ok { c with onboardingCompleted := true }

/-- `Client.addSpecialization`: at most 3, no duplicates; `push`
appends at the end. -/
def Client.addSpecialization (c : Client) (specializationId : String) :
    Except (DomainError × Client) Client :=
  if c.specializationIds.length ≥ 3 then
    .error (.validation "Maximum 3 specializations allowed", c)
  else if c.specializationIds.contains specializationId then
    .error (.validation "Specialization already exists", c)
  else
    .ok { c with specializationIds := c.specializationIds ++ [specializationId] }

/-- `Client.removeSpecialization`: keep at least one, id must be
present; `splice` at `indexOf` removes the first occurrence. -/
def Client.removeSpecialization (c : Client) (specializationId : String) :
    Except (DomainError × Client) Client :=
  if c.specializationIds.length ≤ 1 then
    .error (.validation "At least one specialization is required", c)
  else if !(c.specializationIds.contains specializationId) then
    .error (.validation "Specialization not found", c)
  else
    .ok { c with specializationIds := c.specializationIds.erase specializationId }

/-- The aggregate state visible to the caller after a mutating client
call: the result on success, the carried state at the throw on
failure. -/
def clientStateAfter (r : Except (DomainError × Client) Client) : Client :=
  match r with
  | .ok c => c
  | .error (_, c) => c

/-- Partial-update payload of `Client.updateProfile` (`undefined`
fields are `none`). -/
structure ClientProfileUpdates where
  name : Option String
  phoneNumber : Option String
  company : Option String
  deriving Repr, DecidableEq

/-- `Client.updateProfile`: name, when provided, must have trimmed
length ≥ 2 (that check precedes every assignment); the remaining
provided fields are assigned unconditionally. -/
def Client.updateProfile (c : Client) (updates : ClientProfileUpdates) :
    Except (DomainError × Client) Client :=
  match updates.name with
  | some n =>
    if (jsTrim n).length < 2 then
      .error (.validation "Name must be at least 2 characters", c)
    else
      .ok { c with
              name := n
              phoneNumber := updates.phoneNumber.orElse fun _ => c.phoneNumber
              company := updates.company.orElse fun _ => c.company }
  | none =>
    .ok { c with
            phoneNumber := updates.phoneNumber.orElse fun _ => c.phoneNumber
            company := updates.company.orElse fun _ => c.company }

/-! ## Client domain service and onboarding use case

The specialization catalog table is modelled by the list of ids it
stores (its primary-key column); the repository's `findByIds` then
returns the catalog rows whose id occurs in the queried set, after the
empty-input short-circuit of the Drizzle implementation. -/

/-- `DrizzleSpecializationRepository.findByIds`, projected to ids. -/
def findByIds (catalog : List String) (ids : List String) : List String :=
  if ids.length = 0 then []
  else catalog.filter (fun s => ids.contains s)

/-- `ClientDomainService.ensureClientDoesNotExist`, applied to the
result of `clientRepository.findByUserId`. -/
def ensureClientDoesNotExist (existing : Option Client) :
    Except DomainError Unit :=
  match existing with
  | some _ => .error (.clientAlreadyExists "Client profile already exists for this user")
  | none => .ok ()

/-- `ClientDomainService.validateSpecializations`: when the lookup
returns fewer rows than ids were supplied, fails listing the ids whose
rows were not found. -/
def validateSpecializations (catalog : List String) (ids : List String) :
    Except DomainError Unit :=
  let existingSpecs := findByIds catalog ids
  if existingSpecs.length ≠ ids.length then
    let invalidIds := ids.filter (fun i => !(existingSpecs.contains i))
    .error (.validation
      ("Invalid specialization IDs: " ++ String.intercalate ", " invalidIds))
  else
    .ok ()

/-- `CompleteOnboardingDto`. -/
structure CompleteOnboardingDto where
  userId : String
  name : String
  phoneNumber : Option String
  country : String
  state : String
  company : Option String
  specializationIds : List String
  emailVerified : Bool
  deriving Repr, DecidableEq

/-- `CompleteOnboardingResult`. -/
structure CompleteOnboardingResult where
  clientId : String
  userId : String
  specializationCount : Nat
  onboardingCompleted : Bool
  deriving Repr, DecidableEq

/-- A write issued by a use case to its repositories. -/
inductive RepoCall where
  | saveClient (c : Client)
  deriving Repr, DecidableEq

/-- `CompleteOnboardingUseCase.execute`.  Collaborator state is
explicit: `catalog` backs the specialization repository, `existing` is
`clientRepository.findByUserId dto.userId`, `newId` is the generated
UUID.  Returns the outcome together with the trace of repository
writes (`save` echoes its argument back as the saved client). -/
def CompleteOnboardingUseCase.execute (catalog : List String)
    (existing : Option Client) (newId : String)
    (dto : CompleteOnboardingDto) :
    Except DomainError CompleteOnboardingResult × List RepoCall :=
  if !dto.emailVerified then
    (.error (.unauthorized
      "Email verification required. Please verify your email before completing onboarding."), [])
  else
    match ensureClientDoesNotExist existing with
    | .error e => (.error e, [])
    | .ok () =>
      match validateSpecializations catalog dto.specializationIds with
      | .error e => (.error e, [])
      | .ok () =>
        match Location.create dto.state dto.country with
        | .error e => (.error e, [])
        | .ok locationVo =>
          match Client.create newId
              { userId := dto.userId
                name := dto.name
                phoneNumber := dto.phoneNumber
                location := locationVo
                company := dto.company
                specializationIds := dto.specializationIds
                onboardingCompleted := false } with
          | .error e => (.error e, [])
          | .ok client =>
            match client.completeOnboarding with
            | .error (e, _) => (.error e, [])
            | .ok completed =>
              let savedClient := completed
              (.ok { clientId := savedClient.id
                     userId := savedClient.userId
                     specializationCount := savedClient.specializationIds.length
                     onboardingCompleted := savedClient.onboardingCompleted },
               [.saveClient completed])

/-! ## Lawyer aggregate -/

/-- A specialization supplied to `Lawyer.saveSpecializations`. -/
structure SpecializationInput where
  id : String
  yearsOfExperience : Int
  deriving Repr, DecidableEq

/-- Tag attached when specializations are stored on the aggregate. -/
inductive SpecializationType where
  | primary
  | secondary
  deriving Repr, DecidableEq

/-- A stored lawyer specialization (`{...spec, type}`). -/
structure LawyerSpecialization where
  id : String
  yearsOfExperience : Int
  type : SpecializationType
  deriving Repr, DecidableEq

/-- Domain events of the Lawyer aggregate. -/
inductive LawyerEvent where
  | created (lawyerId userId email name : String)
  | onboardingStepCompleted (lawyerId step nextStep : String)
  | onboardingSubmitted (lawyerId fullName email : String)
  deriving Repr, DecidableEq

/-- Lawyer aggregate root state.  `documents` is an `any[]` the entity
only measures, populated outside the entity (repository
`saveDocuments` + reconstitution); its elements are modelled as
strings. -/
structure Lawyer where
  id : String
  userId : String
  firstName : String
  middleName : Option String
  lastName : String
  email : Email
  phoneNumber : String
  country : String
  barCredentials : Option BarCredentials
  education : Option Education
  currentFirm : Option String
  onboardingStep : OnboardingStep
  applicationStatus : ApplicationStatus
  profileCompleted : Bool
  documents : List String
  specializations : List LawyerSpecialization
  languages : List String
  domainEvents : List LawyerEvent
  deriving Repr, DecidableEq

/-- `fullName` getter. -/
def Lawyer.fullName (l : Lawyer) : String :=
  match l.middleName with
  | some m => l.firstName ++ " " ++ m ++ " " ++ l.lastName
  | none => l.firstName ++ " " ++ l.lastName

/-- `Lawyer.create` (step 1, basic info): name/phone validations, the
Email value object, construction in `basic_info` with empty
collections, then the `LawyerCreated` event (raw, untrimmed arguments
in the event payload, trimmed values in the stored fields). -/
def Lawyer.create (id userId firstName : String) (middleName : Option String)
    (lastName email phoneNumber country : String) :
    Except DomainError Lawyer :=
  if (jsTrim firstName).length < 2 then
    .error (.validation "First name must be at least 2 characters")
  else if (jsTrim lastName).length < 2 then
    .error (.validation "Last name must be at least 2 characters")
  else if (jsTrim phoneNumber).length < 10 then
    .error (.validation "Invalid phone number")
  else
    match Email.create email with
    | .error e => .error e
    | .ok emailVo =>
      let lawyer : Lawyer :=
        { id := id
          userId := userId
          firstName := jsTrim firstName
          middleName := middleName.map jsTrim
          lastName := jsTrim lastName
          email := emailVo
          phoneNumber := jsTrim phoneNumber
          country := jsTrim country
          barCredentials := none
          education := none
          currentFirm := none
          onboardingStep := .basic_info
          applicationStatus := .pending
          profileCompleted := false
          documents := []
          specializations := []
          languages := []
          domainEvents := [] }
      .ok { lawyer with
             domainEvents := lawyer.domainEvents ++
               [.created id userId email (firstName ++ " " ++ lastName)] }

/-- `Lawyer.reconstitute`: rebuilds from persistence without
validation or events. -/
def Lawyer.reconstitute (l : Lawyer) : Lawyer := l

/-- `Lawyer.saveCredentials` (step 2).  Mirrors the source's mutation
order: the step guard and `BarCredentials.create` throw before any
assignment, but `Education.create` throws only after
`this._barCredentials` was assigned — that partially mutated state is
what the error carries. -/
def Lawyer.saveCredentials (l : Lawyer) (currentYear : Int)
    (barNumber barAssociation : String) (yearOfBarAdmission : Int)
    (lawSchool : String) (graduationYear : Int)
    (currentFirm : Option String) : Except (DomainError × Lawyer) Lawyer :=
  if l.onboardingStep ≠ .basic_info then
    .error (.invalidOnboardingStep "Cannot save credentials. Complete basic info first.", l)
  else
    match BarCredentials.create barNumber barAssociation (some yearOfBarAdmission) with
    | .error e => .error (e, l)
    | .ok bc =>
      let l₁ := { l with barCredentials := some bc }
      match Education.create currentYear lawSchool graduationYear with
      | .error e => .error (e, l₁)
      | .ok edu =>
        let l₂ := { l₁ with
                     education := some edu
                     currentFirm := currentFirm.map jsTrim
                     onboardingStep := .credentials }
        .ok { l₂ with
               domainEvents := l₂.domainEvents ++
                 [.onboardingStepCompleted l.id "credentials" "specializations"] }

/-- `Lawyer.saveSpecializations` (step 3): step guard, the ≤5/≤3/≥1
limits (all before any mutation), then the tagged concatenation of
primary and secondary lists, the languages, and the step advance. -/
def Lawyer.saveSpecializations (l : Lawyer)
    (primarySpecializations secondarySpecializations : List SpecializationInput)
    (languageIds : List String) : Except (DomainError × Lawyer) Lawyer :=
  if l.onboardingStep ≠ .credentials then
    .error (.invalidOnboardingStep "Cannot save specializations. Complete credentials first.", l)
  else if primarySpecializations.length > 5 then
    .error (.validation "Maximum 5 primary specializations allowed", l)
  else if secondarySpecializations.length > 3 then
    .error (.validation "Maximum 3 secondary specializations allowed", l)
  else if languageIds.length = 0 then
    .error (.validation "At least one language is required", l)
  else
    let l₁ := { l with
                 specializations :=
                   primarySpecializations.map
                     (fun (s : SpecializationInput) =>
                       LawyerSpecialization.mk s.id s.yearsOfExperience .primary) ++
                   secondarySpecializations.map
                     (fun (s : SpecializationInput) =>
                       LawyerSpecialization.mk s.id s.yearsOfExperience .secondary)
                 languages := languageIds
                 onboardingStep := .specializations }
    .ok { l₁ with
           domainEvents := l₁.domainEvents ++
             [.onboardingStepCompleted l.id "specializations" "submitted"] }

/-- `Lawyer.submitForReview` (step 4): completeness checks in source
order — step, credentials/education, documents, specializations — all
before any mutation; then the advance to `submitted` with
`profileCompleted := true` and the submission event. -/
def Lawyer.submitForReview (l : Lawyer) : Except (DomainError × Lawyer) Lawyer :=
  if l.onboardingStep ≠ .specializations then
    .error (.incompleteOnboarding "Cannot submit. Complete all onboarding steps first.", l)
  else if l.barCredentials.isNone || l.education.isNone then
    .error (.incompleteOnboarding "Bar credentials and education are required", l)
  else if l.documents.length = 0 then
    .error (.incompleteOnboarding "At least one document is required", l)
  else if l.specializations.length = 0 then
    .error (.incompleteOnboarding "At least one specialization is required", l)
  else
    let l₁ := { l with onboardingStep := .submitted, profileCompleted := true }
    .ok { l₁ with
           domainEvents := l₁.domainEvents ++
             [.onboardingSubmitted l.id l.fullName l.email.value] }

/-- Document attachment happens outside the entity: the repository
persists uploads (`ILawyerRepository.saveDocuments`) and the aggregate
is reloaded with them via `reconstitute`.  This helper is that
round-trip: the same aggregate state with the stored documents. -/
def Lawyer.attachDocuments (l : Lawyer) (docs : List String) : Lawyer :=
  { l with documents := docs }

/-- The aggregate state visible to the caller after a mutating call:
the result on success, the carried state at the throw on failure. -/
def lawyerStateAfter (r : Except (DomainError × Lawyer) Lawyer) : Lawyer :=
  match r with
  | .ok l => l
  | .error (_, l) => l

/-! ## User (Account) aggregate -/

/-- Domain events of the User aggregate. -/
inductive UserEvent where
  | roleChanged (userId oldRole newRole changedBy : String)
  | banned (userId reason : String) (expiresAt : Option Int) (bannedBy : Option String)
  deriving Repr, DecidableEq

/-- User aggregate root state (`banExpires` as epoch time). -/
structure User where
  id : String
  name : String
  email : String
  emailVerified : Bool
  image : Option String
  role : Role
  banned : Bool
  banReason : Option String
  banExpires : Option Int
  onboardingCompleted : Bool
  domainEvents : List UserEvent
  deriving Repr, DecidableEq

/-- `User.changeRole`: rejects a no-op change (`Role.equals` compares
the wrapped values), otherwise replaces the role and applies one
`UserRoleChangedEvent (id, oldRole, newRole, adminId)`. -/
def User.changeRole (u : User) (newRole : Role) (adminId : String) :
    Except (DomainError × User) User :=
  if u.role.value = newRole.value then
    .error (.validation "User already has this role", u)
  else
    .ok { u with
           role := newRole
           domainEvents := u.domainEvents ++
             [.roleChanged u.id u.role.value newRole.value adminId] }

/-- `User.ban`: guards (already banned, blank reason) precede all
mutation; then sets the ban fields and applies a `UserBannedEvent`. -/
def User.ban (u : User) (reason : String) (expiresAt : Option Int)
    (adminId : Option String) : Except (DomainError × User) User :=
  if u.banned then
    .error (.validation "User is already banned", u)
  else if reason.isEmpty || (jsTrim reason).isEmpty then
    .error (.validation "Ban reason is required", u)
  else
    .ok { u with
           banned := true
           banReason := some reason
           banExpires := expiresAt
           domainEvents := u.domainEvents ++ [.banned u.id reason expiresAt adminId] }

/-! ## Sample fixtures used by the closed witness statements -/

/-- A valid client location. -/
def sampleLocation : Location := ⟨"CA", "US"⟩

/-- A freshly created, not-yet-onboarded client with one
specialization. -/
def sampleClient : Client :=
  ⟨"client-1", "user-1", "Jane Doe", none, sampleLocation, none, ["spec-a"], false⟩

/-- Bar credentials as produced by this system's callers (issue-date
slot holding the bar association, expiry slot the admission year). -/
def sampleBar : BarCredentials := ⟨"BAR12345", "New York State Bar", some 2015⟩

/-- A sample education record. -/
def sampleEducation : Education := ⟨"Harvard Law", 2010⟩

/-- A lawyer aggregate parameterized by step, documents and stored
specializations, with credentials and education present. -/
def sampleLawyer (step : OnboardingStep) (docs : List String)
    (specs : List LawyerSpecialization) : Lawyer :=
  ⟨"lawyer-1", "user-1", "John", none, "Smith", ⟨"john@example.com"⟩,
   "1234567890", "US", some sampleBar, some sampleEducation, none, step,
   .pending, false, docs, specs, ["en"], []⟩

/-- A sample account with the client role. -/
def sampleUser : User :=
  ⟨"user-1", "Jane Doe", "jane@example.com", true, none, ⟨"client"⟩,
   false, none, none, false, []⟩

/-! ## Claims -/

/-- C4: for a profile with `onboardingCompleted` already `true`, a second
`completeOnboarding()` always fails with a ValidationError and leaves the
profile unchanged (the error carries the untouched state); for a profile
with the flag `false` and at least one specialization it succeeds and sets
`onboardingCompleted := true` — the transition happens exactly once. -/
theorem client_completeOnboarding_exactly_once (c : Client) :
    (c.onboardingCompleted = true →
      c.completeOnboarding =
        .error (.validation "Onboarding already completed", c)) ∧
    (c.onboardingCompleted = false → 1 ≤ c.specializationIds.length →
      c.completeOnboarding = .ok { c with onboardingCompleted := true }) := by
  constructor
  · intro h
    simp [Client.completeOnboarding, h]
  · intro h hlen
    have h0 : ¬(c.specializationIds.length = 0) := by omega
    simp [Client.completeOnboarding, h, h0]

/-- Witness for C4 at the sample client: onboarding completes once, and
the second attempt fails carrying the unchanged state. -/
theorem client_completeOnboarding_exactly_once_witness :
    sampleClient.completeOnboarding =
      .ok { sampleClient with onboardingCompleted := true } ∧
    ({ sampleClient with onboardingCompleted := true } : Client).completeOnboarding =
      .error (.validation "Onboarding already completed",
        { sampleClient with onboardingCompleted := true }) :=
  ⟨(client_completeOnboarding_exactly_once sampleClient).2 rfl (by decide),
   (client_completeOnboarding_exactly_once _).1 rfl⟩

/-- C6: `changeRole` rejects a no-op change with a ValidationError, and on
a genuine change replaces the role and appends exactly one role-changed
event carrying `(accountId, oldRole, newRole, adminId)`. -/
theorem user_changeRole_correct (u : User) (newRole : Role) (adminId : String) :
    (u.role.value = newRole.value →
      u.changeRole newRole adminId =
        .error (.validation "User already has this role", u)) ∧
    (u.role.value ≠ newRole.value →
      u.changeRole newRole adminId =
        .ok { u with
               role := newRole
               domainEvents := u.domainEvents ++
                 [.roleChanged u.id u.role.value newRole.value adminId] }) := by
  constructor <;> intro h <;> simp [User.changeRole, h]

/-- Witness for C6 at the sample account: changing `client` to `client`
fails; changing it to `lawyer` succeeds and appends the event with the
correct old/new pair. -/
theorem user_changeRole_correct_witness :
    sampleUser.changeRole ⟨"client"⟩ "admin-1" =
      .error (.validation "User already has this role", sampleUser) ∧
    sampleUser.changeRole ⟨"lawyer"⟩ "admin-1" =
      .ok { sampleUser with
             role := ⟨"lawyer"⟩
             domainEvents := sampleUser.domainEvents ++
               [.roleChanged sampleUser.id "client" "lawyer" "admin-1"] } :=
  ⟨(user_changeRole_correct sampleUser ⟨"client"⟩ "admin-1").1 rfl,
   (user_changeRole_correct sampleUser ⟨"lawyer"⟩ "admin-1").2 (by decide)⟩

/-- In step `specializations`, a missing piece of required data makes
`submitForReview` throw an IncompleteOnboardingError before any
mutation, so the error carries the input state. -/
theorem Lawyer.submit_fails_of_incomplete (l : Lawyer)
    (hstep : l.onboardingStep = .specializations)
    (hmiss : l.barCredentials = none ∨ l.education = none ∨
             l.documents = [] ∨ l.specializations = []) :
    ∃ msg, l.submitForReview = .error (.incompleteOnboarding msg, l) := by
  unfold Lawyer.submitForReview
  rw [if_neg (by simp [hstep])]
  by_cases h1 : l.barCredentials.isNone || l.education.isNone
  · rw [if_pos h1]; exact ⟨_, rfl⟩
  · rw [if_neg h1]
    by_cases h2 : l.documents.length = 0
    · rw [if_pos h2]; exact ⟨_, rfl⟩
    · rw [if_neg h2]
      have h3 : l.specializations.length = 0 := by
        rcases hmiss with h | h | h | h
        · simp [h] at h1
        · simp [h] at h1
        · simp [h] at h2
        · simp [h]
      rw [if_pos h3]
      exact ⟨_, rfl⟩

/-- C5: a lawyer in step `specializations` that is missing bar
credentials, education, documents, or specializations cannot submit:
`submitForReview` fails with an IncompleteOnboardingError and the error
carries the aggregate unchanged (so the step stays `specializations` and
`profileCompleted` keeps its value). -/
theorem lawyer_submit_incomplete_fails (l : Lawyer)
    (hstep : l.onboardingStep = .specializations)
    (hmiss : l.barCredentials = none ∨ l.education = none ∨
             l.documents = [] ∨ l.specializations = []) :
    ∃ msg, l.submitForReview = .error (.incompleteOnboarding msg, l) :=
  Lawyer.submit_fails_of_incomplete l hstep hmiss

/-- Witness for C5: the sample lawyer at the `specializations` step with
no documents cannot submit for review. -/
theorem lawyer_submit_incomplete_fails_witness :
    ∃ msg, (sampleLawyer .specializations [] [⟨"s1", 3, .primary⟩]).submitForReview =
      .error (.incompleteOnboarding msg, sampleLawyer .specializations [] [⟨"s1", 3, .primary⟩]) :=
  lawyer_submit_incomplete_fails _ rfl (Or.inr (Or.inr (Or.inl rfl)))

/-- A successful `Client.create` copies the validated specialization
list, whose length passed the `[1,3]` checks. -/
theorem Client.create_ok_specializations (id : String) (props : ClientProps)
    (c₀ : Client) (h : Client.create id props = .ok c₀) :
    c₀.specializationIds = props.specializationIds ∧
    1 ≤ props.specializationIds.length ∧
    props.specializationIds.length ≤ 3 := by
  unfold Client.create at h
  cases hv : Client.validateProps props with
  | error e => rw [hv] at h; exact absurd h (by simp)
  | ok u =>
    rw [hv] at h
    unfold Client.validateProps at hv
    split_ifs at hv with h1 h2 h3 h4
    cases h
    refine ⟨rfl, ?_, ?_⟩ <;> omega

/-- C3: the specialization count of a client profile stays in `[1,3]`:
`create` rejects counts outside the range; `completeOnboarding`,
`addSpecialization`, `removeSpecialization` and `updateProfile` preserve
the range whether they succeed or throw; `addSpecialization` always
fails at exactly 3 specializations and `removeSpecialization` always
fails at exactly 1, in both cases leaving the profile unchanged. -/
theorem client_specialization_count_invariant (id : String)
    (props : ClientProps) (c : Client) (sid : String)
    (u : ClientProfileUpdates) :
    (∀ c₀, Client.create id props = .ok c₀ →
      1 ≤ c₀.specializationIds.length ∧ c₀.specializationIds.length ≤ 3) ∧
    (¬(1 ≤ props.specializationIds.length ∧ props.specializationIds.length ≤ 3) →
      ∀ c₀, Client.create id props ≠ .ok c₀) ∧
    (1 ≤ c.specializationIds.length ∧ c.specializationIds.length ≤ 3 →
      (1 ≤ (clientStateAfter c.completeOnboarding).specializationIds.length ∧
        (clientStateAfter c.completeOnboarding).specializationIds.length ≤ 3) ∧
      (1 ≤ (clientStateAfter (c.addSpecialization sid)).specializationIds.length ∧
        (clientStateAfter (c.addSpecialization sid)).specializationIds.length ≤ 3) ∧
      (1 ≤ (clientStateAfter (c.removeSpecialization sid)).specializationIds.length ∧
        (clientStateAfter (c.removeSpecialization sid)).specializationIds.length ≤ 3) ∧
      (1 ≤ (clientStateAfter (c.updateProfile u)).specializationIds.length ∧
        (clientStateAfter (c.updateProfile u)).specializationIds.length ≤ 3)) ∧
    (c.specializationIds.length = 3 →
      ∃ e, c.addSpecialization sid = .error (e, c)) ∧
    (c.specializationIds.length = 1 →
      ∃ e, c.removeSpecialization sid = .error (e, c)) := by
  refine ⟨?_, ?_, ?_, ?_, ?_⟩
  · intro c₀ h
    obtain ⟨heq, h1, h3⟩ := Client.create_ok_specializations id props c₀ h
    rw [heq]; exact ⟨h1, h3⟩
  · intro hout c₀ h
    obtain ⟨heq, h1, h3⟩ := Client.create_ok_specializations id props c₀ h
    exact hout ⟨h1, h3⟩
  · rintro ⟨hlo, hhi⟩
    refine ⟨?_, ?_, ?_, ?_⟩
    · unfold Client.completeOnboarding clientStateAfter
      split_ifs <;> simp <;> omega
    · unfold Client.addSpecialization clientStateAfter
      split_ifs with h1 h2
      · exact ⟨hlo, hhi⟩
      · exact ⟨hlo, hhi⟩
      · simp only []
        simp [List.length_append]
        omega
    · unfold Client.removeSpecialization clientStateAfter
      split_ifs with h1 h2
      · exact ⟨hlo, hhi⟩
      · exact ⟨hlo, hhi⟩
      · simp only []
        have hmem : sid ∈ c.specializationIds := by
          simpa using h2
        simp [List.length_erase_of_mem hmem]
        omega
    · unfold Client.updateProfile clientStateAfter
      cases u.name with
      | none => exact ⟨hlo, hhi⟩
      | some n =>
        simp only []
        split_ifs <;> exact ⟨hlo, hhi⟩
  · intro h3
    unfold Client.addSpecialization
    rw [if_pos (by omega)]
    exact ⟨_, rfl⟩
  · intro h1
    unfold Client.removeSpecialization
    rw [if_pos (by omega)]
    exact ⟨_, rfl⟩

/-- Witness for C3: adding a fourth specialization to a three-spec
profile fails, and removing the last specialization of a one-spec
profile fails, each leaving the profile unchanged. -/
theorem client_specialization_count_invariant_witness :
    (∃ e, ({ sampleClient with specializationIds := ["a", "b", "c"] } : Client).addSpecialization "d" =
      .error (e, { sampleClient with specializationIds := ["a", "b", "c"] })) ∧
    (∃ e, sampleClient.removeSpecialization "spec-a" = .error (e, sampleClient)) :=
  ⟨(client_specialization_count_invariant "client-1"
      ⟨"user-1", "Jane Doe", none, sampleLocation, none, ["spec-a"], false⟩
      { sampleClient with specializationIds := ["a", "b", "c"] } "d"
      ⟨none, none, none⟩).2.2.2.1 (by decide),
   (client_specialization_count_invariant "client-1"
      ⟨"user-1", "Jane Doe", none, sampleLocation, none, ["spec-a"], false⟩
      sampleClient "spec-a" ⟨none, none, none⟩).2.2.2.2 (by decide)⟩

/-- C8: under the order `basic_info < credentials < specializations <
submitted`, no call to `saveCredentials`, `saveSpecializations` or
`submitForReview` ever moves `onboardingStep` to an earlier step —
whether it succeeds or throws — and each successful call advances the
step to exactly the next one. -/
theorem lawyer_onboarding_step_monotone (l : Lawyer) (currentYear : Int)
    (barNumber barAssociation lawSchool : String)
    (yearOfBarAdmission graduationYear : Int) (currentFirm : Option String)
    (ps ss : List SpecializationInput) (lids : List String) :
    (l.onboardingStep.idx ≤
        (lawyerStateAfter (l.saveCredentials currentYear barNumber barAssociation
          yearOfBarAdmission lawSchool graduationYear currentFirm)).onboardingStep.idx ∧
      ∀ l', l.saveCredentials currentYear barNumber barAssociation
          yearOfBarAdmission lawSchool graduationYear currentFirm = .ok l' →
        l'.onboardingStep.idx = l.onboardingStep.idx + 1) ∧
    (l.onboardingStep.idx ≤
        (lawyerStateAfter (l.saveSpecializations ps ss lids)).onboardingStep.idx ∧
      ∀ l', l.saveSpecializations ps ss lids = .ok l' →
        l'.onboardingStep.idx = l.onboardingStep.idx + 1) ∧
    (l.onboardingStep.idx ≤
        (lawyerStateAfter l.submitForReview).onboardingStep.idx ∧
      ∀ l', l.submitForReview = .ok l' →
        l'.onboardingStep.idx = l.onboardingStep.idx + 1) := by
  refine ⟨⟨?_, ?_⟩, ⟨?_, ?_⟩, ⟨?_, ?_⟩⟩
  · unfold Lawyer.saveCredentials
    split_ifs with h
    · simp [lawyerStateAfter]
    · push_neg at h
      cases hbc : BarCredentials.create barNumber barAssociation (some yearOfBarAdmission) with
      | error e => simp [lawyerStateAfter]
      | ok bc =>
        cases hed : Education.create currentYear lawSchool graduationYear with
        | error e => simp [lawyerStateAfter]
        | ok edu => simp [lawyerStateAfter, h, OnboardingStep.idx]
  · intro l' h'
    unfold Lawyer.saveCredentials at h'
    split_ifs at h' with h
    push_neg at h
    cases hbc : BarCredentials.create barNumber barAssociation (some yearOfBarAdmission) with
    | error e => rw [hbc] at h'; exact absurd h' (by simp)
    | ok bc =>
      rw [hbc] at h'
      cases hed : Education.create currentYear lawSchool graduationYear with
      | error e => rw [hed] at h'; exact absurd h' (by simp)
      | ok edu =>
        rw [hed] at h'
        cases h'
        simp [h, OnboardingStep.idx]
  · unfold Lawyer.saveSpecializations
    split_ifs with h h1 h2 h3
    · simp [lawyerStateAfter]
    · simp [lawyerStateAfter]
    · simp [lawyerStateAfter]
    · simp [lawyerStateAfter]
    · push_neg at h
      simp [lawyerStateAfter, h, OnboardingStep.idx]
  · intro l' h'
    unfold Lawyer.saveSpecializations at h'
    split_ifs at h' with h h1 h2 h3
    push_neg at h
    cases h'
    simp [h, OnboardingStep.idx]
  · unfold Lawyer.submitForReview
    split_ifs with h h1 h2 h3
    · simp [lawyerStateAfter]
    · simp [lawyerStateAfter]
    · simp [lawyerStateAfter]
    · simp [lawyerStateAfter]
    · push_neg at h
      simp [lawyerStateAfter, h, OnboardingStep.idx]
  · intro l' h'
    unfold Lawyer.submitForReview at h'
    split_ifs at h' with h h1 h2 h3
    push_neg at h
    cases h'
    simp [h, OnboardingStep.idx]

/-- The concrete state reached by saving one specialization and one
language from the sample lawyer at the `credentials` step. -/
def monoWitnessResult : Lawyer :=
  lawyerStateAfter
    ((sampleLawyer .credentials [] []).saveSpecializations [⟨"s1", 3⟩] [] ["en"])

/-- Witness for C8: the sample `saveSpecializations` call succeeds and
advances the step index by exactly one. -/
theorem lawyer_onboarding_step_monotone_witness :
    monoWitnessResult.onboardingStep.idx =
      (sampleLawyer .credentials [] []).onboardingStep.idx + 1 :=
  (lawyer_onboarding_step_monotone (sampleLawyer .credentials [] []) 0 "" "" ""
    0 0 none [⟨"s1", 3⟩] [] ["en"]).2.1.2 monoWitnessResult (by decide)

/-- C7: when the queried id set contains at least one id absent from the
specialization catalog (an id-keyed table, hence duplicate-free),
`validateSpecializations` fails with a ValidationError whose message
lists exactly the queried ids that are absent from the catalog. -/
theorem validateSpecializations_names_invalid_ids (catalog ids : List String)
    (hnd : catalog.Nodup) (hbad : ∃ x ∈ ids, x ∉ catalog) :
    validateSpecializations catalog ids =
      .error (.validation ("Invalid specialization IDs: " ++
        String.intercalate ", "
          (ids.filter (fun i => !(catalog.contains i))))) := by
  obtain ⟨x, hx, hxc⟩ := hbad
  have hne : ids ≠ [] := by rintro rfl; exact absurd hx (List.not_mem_nil x)
  have hfind : findByIds catalog ids = catalog.filter (fun s => ids.contains s) := by
    unfold findByIds
    rw [if_neg (by simpa [List.length_eq_zero] using hne)]
  have hsub : (catalog.filter (fun s => ids.contains s)) ⊆ ids.erase x := by
    intro y hy
    have hy' := List.mem_filter.mp hy
    have hyi : y ∈ ids := by simpa using hy'.2
    have hne' : y ≠ x := fun he => hxc (he ▸ hy'.1)
    exact (List.mem_erase_of_ne hne').mpr hyi
  have hlen : (catalog.filter (fun s => ids.contains s)).length ≤ ids.length - 1 := by
    have h := (List.subperm_of_subset (hnd.filter _) hsub).length_le
    rwa [List.length_erase_of_mem hx] at h
  have hpos : 0 < ids.length := List.length_pos.mpr hne
  have hguard : (catalog.filter (fun s => ids.contains s)).length ≠ ids.length := by
    omega
  have hfilters :
      ids.filter (fun i => !((catalog.filter (fun s => ids.contains s)).contains i)) =
      ids.filter (fun i => !(catalog.contains i)) := by
    apply List.filter_congr
    intro i hi
    by_cases hc : i ∈ catalog
    · have h1 : i ∈ catalog.filter (fun s => ids.contains s) :=
        List.mem_filter.mpr ⟨hc, by simpa using hi⟩
      simp [h1, hc, hi]
    · have h1 : i ∉ catalog.filter (fun s => ids.contains s) := by
        intro hmem
        exact hc (List.mem_filter.mp hmem).1
      simp [h1, hc]
  unfold validateSpecializations
  rw [hfind]
  simp only [if_pos hguard]
  rw [hfilters]

/-- Witness for C7: querying `["a", "c", "d"]` against the catalog
`["a", "b"]` reports exactly the absent ids `c` and `d`. -/
theorem validateSpecializations_names_invalid_ids_witness :
    validateSpecializations ["a", "b"] ["a", "c", "d"] =
      .error (.validation ("Invalid specialization IDs: " ++
        String.intercalate ", "
          ((["a", "c", "d"]).filter (fun i => !((["a", "b"]).contains i))))) :=
  validateSpecializations_names_invalid_ids ["a", "b"] ["a", "c", "d"]
    (by decide) ⟨"c", by decide, by decide⟩

/-- C9: `saveCredentials` forwards `(barNumber, barAssociation,
yearOfBarAdmission)` positionally into `BarCredentials.create(barNumber,
issueDate, expiryDate?)`: on success the stored value object holds the
bar association in `issueDate` and the admission year in `expiryDate`
(the aggregate has no field that stores either value under its own
name), and the call fails whenever `barAssociation` is the empty
string (it is rejected as a missing issue date). -/
theorem saveCredentials_positional_mixup (l : Lawyer) (currentYear : Int)
    (barNumber barAssociation lawSchool : String)
    (yearOfBarAdmission graduationYear : Int) (currentFirm : Option String) :
    (∀ l', l.saveCredentials currentYear barNumber barAssociation
        yearOfBarAdmission lawSchool graduationYear currentFirm = .ok l' →
      l'.barCredentials =
        some ⟨jsTrim barNumber, barAssociation, some yearOfBarAdmission⟩) ∧
    (barAssociation = "" →
      ∀ l', l.saveCredentials currentYear barNumber barAssociation
        yearOfBarAdmission lawSchool graduationYear currentFirm ≠ .ok l') := by
  constructor
  · intro l' h'
    unfold Lawyer.saveCredentials at h'
    split_ifs at h' with h
    cases hbc : BarCredentials.create barNumber barAssociation (some yearOfBarAdmission) with
    | error e => rw [hbc] at h'; exact absurd h' (by simp)
    | ok bc =>
      rw [hbc] at h'
      cases hed : Education.create currentYear lawSchool graduationYear with
      | error e => rw [hed] at h'; exact absurd h' (by simp)
      | ok edu =>
        rw [hed] at h'
        cases h'
        unfold BarCredentials.create at hbc
        split_ifs at hbc
        cases hbc
        rfl
  · intro hba l' h'
    unfold Lawyer.saveCredentials at h'
    split_ifs at h' with h
    cases hbc : BarCredentials.create barNumber barAssociation (some yearOfBarAdmission) with
    | error e => rw [hbc] at h'; exact absurd h' (by simp)
    | ok bc =>
      subst hba
      unfold BarCredentials.create at hbc
      split_ifs at hbc with hb1 hb2
      exact absurd (by decide) hb2

/-- The concrete state reached by the sample `saveCredentials` call
used to witness C9. -/
def credWitnessResult : Lawyer :=
  lawyerStateAfter ((sampleLawyer .basic_info [] []).saveCredentials 2026
    "BAR99999" "CA State Bar" 2012 "Yale Law" 2005 none)

/-- Witness for C9: the sample call stores the bar association in the
`issueDate` field and the admission year in the `expiryDate` field, and
the same call with an empty bar association is rejected. -/
theorem saveCredentials_positional_mixup_witness :
    credWitnessResult.barCredentials =
      some (BarCredentials.mk (jsTrim "BAR99999") "CA State Bar" (some 2012)) ∧
    (sampleLawyer .basic_info [] []).saveCredentials 2026
      "BAR99999" "" 2012 "Yale Law" 2005 none ≠ .ok credWitnessResult :=
  ⟨(saveCredentials_positional_mixup (sampleLawyer .basic_info [] []) 2026
      "BAR99999" "CA State Bar" "Yale Law" 2012 2005 none).1
      credWitnessResult (by decide),
   (saveCredentials_positional_mixup (sampleLawyer .basic_info [] []) 2026
      "BAR99999" "" "Yale Law" 2012 2005 none).2 rfl credWitnessResult⟩

/-- C10: from the `credentials` step, `saveSpecializations([], [],
languageIds)` with a non-empty language list succeeds — the
specialization limits are upper bounds only — advancing the profile to
the `specializations` step with an empty stored specialization set; any
later `submitForReview` on that profile (with whatever documents were
attached meanwhile) fails. -/
theorem saveSpecializations_empty_allowed (l : Lawyer) (lids : List String)
    (hstep : l.onboardingStep = .credentials) (hl : lids ≠ []) :
    ∃ l', l.saveSpecializations [] [] lids = .ok l' ∧
      l'.onboardingStep = .specializations ∧
      l'.specializations = [] ∧
      ∀ docs, ∃ msg, (l'.attachDocuments docs).submitForReview =
        .error (.incompleteOnboarding msg, l'.attachDocuments docs) := by
  unfold Lawyer.saveSpecializations
  rw [if_neg (by simp [hstep])]
  rw [if_neg (by simp)]
  rw [if_neg (by simp)]
  rw [if_neg (by simpa [List.length_eq_zero] using hl)]
  refine ⟨_, rfl, rfl, by simp, ?_⟩
  intro docs
  exact Lawyer.submit_fails_of_incomplete _ rfl
    (Or.inr (Or.inr (Or.inr (by simp [Lawyer.attachDocuments]))))

/-- Witness for C10: the sample lawyer at the `credentials` step can
save an empty specialization selection with one language, and the
resulting profile can never submit. -/
theorem saveSpecializations_empty_allowed_witness :
    ∃ l', (sampleLawyer .credentials [] []).saveSpecializations [] [] ["en"] = .ok l' ∧
      l'.onboardingStep = .specializations ∧
      l'.specializations = [] ∧
      ∀ docs, ∃ msg, (l'.attachDocuments docs).submitForReview =
        .error (.incompleteOnboarding msg, l'.attachDocuments docs) :=
  saveSpecializations_empty_allowed (sampleLawyer .credentials [] []) ["en"]
    rfl (by decide)

/-- A string whose trimmed form has positive length is itself
non-empty. -/
theorem isEmpty_false_of_jsTrim_length {s : String} {n : Nat}
    (hn : 0 < n) (h : n ≤ (jsTrim s).length) : s.isEmpty = false := by
  cases he : s.isEmpty
  · rfl
  · exfalso
    have hs : s = "" := by simpa [String.isEmpty_iff] using he
    subst hs
    have h0 : (jsTrim "").length = 0 := rfl
    omega

/-- A string whose trimmed form is non-empty is itself non-empty. -/
theorem isEmpty_false_of_jsTrim_isEmpty {s : String}
    (h : (jsTrim s).isEmpty = false) : s.isEmpty = false := by
  cases he : s.isEmpty
  · rfl
  · exfalso
    have hs : s = "" := by simpa [String.isEmpty_iff] using he
    subst hs
    exact absurd h (by decide)

/-- C2 counterexample: an onboarding request with
`specializationIds = []`, a verified email and no existing profile, but
a one-character name, raises the name ValidationError — not the
claimed specialization message (the name check of
`Client.validateProps` runs first).  The repository trace is empty
either way. -/
theorem completeOnboarding_empty_specs_counterexample :
    CompleteOnboardingUseCase.execute [] none "client-9"
      { userId := "user-9", name := "x", phoneNumber := none, country := "US",
        state := "CA", company := none, specializationIds := [],
        emailVerified := true } =
      (.error (.validation "Name must be at least 2 characters"), []) ∧
    (CompleteOnboardingUseCase.execute [] none "client-9"
      { userId := "user-9", name := "x", phoneNumber := none, country := "US",
        state := "CA", company := none, specializationIds := [],
        emailVerified := true }).1 ≠
      .error (.validation "At least one specialization is required") := by
  constructor <;> decide

/-- C2 amended: with `specializationIds = []`, a verified email and no
existing profile, the use case never invokes the repository's `save`;
and when the remaining fields are valid (non-blank userId, trimmed name
of length ≥ 2, non-blank country and state) the error raised is exactly
the ValidationError `At least one specialization is required`. -/
theorem completeOnboarding_empty_specs_amended (catalog : List String)
    (newId : String) (dto : CompleteOnboardingDto)
    (hver : dto.emailVerified = true)
    (hempty : dto.specializationIds = []) :
    (CompleteOnboardingUseCase.execute catalog none newId dto).2 = [] ∧
    ((jsTrim dto.userId).isEmpty = false →
      2 ≤ (jsTrim dto.name).length →
      (jsTrim dto.country).isEmpty = false →
      (jsTrim dto.state).isEmpty = false →
      CompleteOnboardingUseCase.execute catalog none newId dto =
        (.error (.validation "At least one specialization is required"), [])) := by
  have hval : validateSpecializations catalog dto.specializationIds = .ok () := by
    rw [hempty]
    unfold validateSpecializations findByIds
    simp
  constructor
  · unfold CompleteOnboardingUseCase.execute
    rw [if_neg (by simp [hver])]
    simp only [ensureClientDoesNotExist]
    rw [hval]
    cases hloc : Location.create dto.state dto.country with
    | error e => simp [hloc]
    | ok loc =>
      cases hc : Client.create newId
        { userId := dto.userId, name := dto.name, phoneNumber := dto.phoneNumber,
          location := loc, company := dto.company,
          specializationIds := dto.specializationIds,
          onboardingCompleted := false } with
      | error e => simp [hc]
      | ok c =>
        exfalso
        have hb := (Client.create_ok_specializations _ _ _ hc).2.1
        rw [hempty] at hb
        simp at hb
  · intro hu hn hco hst
    have huE : dto.userId.isEmpty = false := isEmpty_false_of_jsTrim_isEmpty hu
    have hnE : dto.name.isEmpty = false :=
      isEmpty_false_of_jsTrim_length (by omega) hn
    have hcoE : dto.country.isEmpty = false := isEmpty_false_of_jsTrim_isEmpty hco
    have hstE : dto.state.isEmpty = false := isEmpty_false_of_jsTrim_isEmpty hst
    have hloc : Location.create dto.state dto.country =
        .ok ⟨jsTrim dto.state, jsTrim dto.country⟩ := by
      unfold Location.create
      rw [if_neg (by simp [hcoE, hco]), if_neg (by simp [hstE, hst])]
    have hcreate : Client.create newId
        { userId := dto.userId, name := dto.name, phoneNumber := dto.phoneNumber,
          location := ⟨jsTrim dto.state, jsTrim dto.country⟩,
          company := dto.company,
          specializationIds := dto.specializationIds,
          onboardingCompleted := false } =
        .error (.validation "At least one specialization is required") := by
      unfold Client.create Client.validateProps
      rw [if_neg (by simp [huE, hu]), if_neg (by simp [hnE]; omega),
        if_pos (by simp [hempty])]
    unfold CompleteOnboardingUseCase.execute
    rw [if_neg (by simp [hver])]
    simp only [ensureClientDoesNotExist]
    rw [hval, hloc]
    simp [hcreate]

/-- Witness for C2 (amended): a fully valid request apart from the
empty specialization list yields exactly the claimed error and an
empty repository trace. -/
theorem completeOnboarding_empty_specs_amended_witness :
    CompleteOnboardingUseCase.execute ["spec-a"] none "client-2"
      { userId := "user-2", name := "Jane Doe", phoneNumber := none,
        country := "US", state := "CA", company := none,
        specializationIds := [], emailVerified := true } =
      (.error (.validation "At least one specialization is required"), []) :=
  (completeOnboarding_empty_specs_amended ["spec-a"] "client-2"
    { userId := "user-2", name := "Jane Doe", phoneNumber := none,
      country := "US", state := "CA", company := none,
      specializationIds := [], emailVerified := true } rfl rfl).2
    (by decide) (by decide) (by decide) (by decide)

/-- The claimed C1 call sequence `create → saveCredentials →
saveSpecializations → submitForReview`, run on concrete valid data for
each step, projected to its final onboarding step and completion flag
(errors keep only the thrown exception). -/
def lawyerSequenceOutcome : Except DomainError (OnboardingStep × Bool) := do
  let l0 ← Lawyer.create "lawyer-9" "user-9" "John" none "Smith"
    "john@example.com" "1234567890" "US"
  let l1 ← (l0.saveCredentials 2026 "BAR12345" "New York State Bar" 2015
    "Harvard Law" 2010 none).mapError Prod.fst
  let l2 ← (l1.saveSpecializations [⟨"s1", 3⟩] [] ["en"]).mapError Prod.fst
  let l3 ← l2.submitForReview.mapError Prod.fst
  pure (l3.onboardingStep, l3.profileCompleted)

/-- C1 counterexample: on valid data for every step, the sequence
`create → saveCredentials → saveSpecializations → submitForReview` does
not succeed — no operation of the sequence ever attaches a document, so
`submitForReview` throws `At least one document is required` instead of
reaching `onboardingStep = submitted`. -/
theorem lawyer_sequence_counterexample :
    lawyerSequenceOutcome =
      .error (.incompleteOnboarding "At least one document is required") ∧
    lawyerSequenceOutcome ≠ .ok (.submitted, true) := by
  constructor <;> decide

/-- C1 amended: `saveSpecializations` before `saveCredentials` always
fails with an InvalidOnboardingStepError; with valid data
`create → saveCredentials → saveSpecializations` succeeds, advancing
through the steps, but `submitForReview` then always fails with the
document requirement (the entity never adds documents); once at least
one document has been attached through the repository
(`saveDocuments` + reconstitution), `submitForReview` succeeds, ending
with `onboardingStep = submitted` and `profileCompleted = true`. -/
theorem lawyer_onboarding_sequence_amended
    (id userId firstName lastName email phoneNumber country : String)
    (middleName : Option String) (currentYear : Int)
    (barNumber barAssociation lawSchool : String)
    (yearOfBarAdmission graduationYear : Int) (currentFirm : Option String)
    (ps ss : List SpecializationInput) (lids docs : List String)
    (hfn : 2 ≤ (jsTrim firstName).length)
    (hln : 2 ≤ (jsTrim lastName).length)
    (hph : 10 ≤ (jsTrim phoneNumber).length)
    (hem : emailRegexTest email = true)
    (hbn : 5 ≤ (jsTrim barNumber).length)
    (hba : barAssociation.isEmpty = false)
    (hsc : 3 ≤ (jsTrim lawSchool).length)
    (hgy₁ : graduationYear ≤ currentYear) (hgy₂ : 1900 ≤ graduationYear)
    (hps : ps.length ≤ 5) (hss : ss.length ≤ 3) (hl : lids ≠ [])
    (hsp : ps ≠ [] ∨ ss ≠ []) (hd : docs ≠ []) :
    ∃ l₀ l₁ l₂ l₃,
      Lawyer.create id userId firstName middleName lastName email
        phoneNumber country = .ok l₀ ∧
      l₀.saveSpecializations ps ss lids =
        .error (.invalidOnboardingStep
          "Cannot save specializations. Complete credentials first.", l₀) ∧
      l₀.saveCredentials currentYear barNumber barAssociation
        yearOfBarAdmission lawSchool graduationYear currentFirm = .ok l₁ ∧
      l₁.saveSpecializations ps ss lids = .ok l₂ ∧
      l₂.onboardingStep = .specializations ∧
      l₂.documents = [] ∧
      l₂.submitForReview =
        .error (.incompleteOnboarding "At least one document is required", l₂) ∧
      (l₂.attachDocuments docs).submitForReview = .ok l₃ ∧
      l₃.onboardingStep = .submitted ∧
      l₃.profileCompleted = true := by
  have hbne : barNumber.isEmpty = false :=
    isEmpty_false_of_jsTrim_length (by omega) hbn
  have hsne : lawSchool.isEmpty = false :=
    isEmpty_false_of_jsTrim_length (by omega) hsc
  have hemail : Email.create email = .ok ⟨jsTrim (jsToLower email)⟩ := by
    unfold Email.create
    rw [if_neg (by simp [hem])]
  have hbar : BarCredentials.create barNumber barAssociation
      (some yearOfBarAdmission) =
      .ok ⟨jsTrim barNumber, barAssociation, some yearOfBarAdmission⟩ := by
    unfold BarCredentials.create
    rw [if_neg (by simp [hbne]; omega), if_neg (by simp [hba])]
  have hedu : Education.create currentYear lawSchool graduationYear =
      .ok ⟨jsTrim lawSchool, graduationYear⟩ := by
    unfold Education.create
    rw [if_neg (by simp [hsne]; omega), if_neg (by omega), if_neg (by omega)]
  have hlids : ¬(lids.length = 0) := by
    simpa [List.length_eq_zero] using hl
  have hdocs : ¬(docs.length = 0) := by
    simpa [List.length_eq_zero] using hd
  have hspl : ¬((ps.map (fun (s : SpecializationInput) =>
        LawyerSpecialization.mk s.id s.yearsOfExperience .primary) ++
      ss.map (fun (s : SpecializationInput) =>
        LawyerSpecialization.mk s.id s.yearsOfExperience .secondary)).length = 0) := by
    simp only [List.length_append, List.length_map]
    rcases hsp with h | h
    · have := List.length_pos.mpr h; omega
    · have := List.length_pos.mpr h; omega
  have hfail : ∀ m : Lawyer, m.onboardingStep = .basic_info →
      m.saveSpecializations ps ss lids =
        .error (.invalidOnboardingStep
          "Cannot save specializations. Complete credentials first.", m) := by
    intro m hm
    unfold Lawyer.saveSpecializations
    rw [if_pos (by simp [hm])]
  have h₀ : ∃ l₀, Lawyer.create id userId firstName middleName lastName email
      phoneNumber country = .ok l₀ ∧
      l₀.onboardingStep = .basic_info ∧ l₀.documents = [] := by
    unfold Lawyer.create
    rw [if_neg (by omega), if_neg (by omega), if_neg (by omega), hemail]
    exact ⟨_, rfl, rfl, rfl⟩
  obtain ⟨l₀, hc₀, hs₀, hd₀⟩ := h₀
  have h₁ : ∃ l₁, l₀.saveCredentials currentYear barNumber barAssociation
      yearOfBarAdmission lawSchool graduationYear currentFirm = .ok l₁ ∧
      l₁.onboardingStep = .credentials ∧
      l₁.barCredentials = some ⟨jsTrim barNumber, barAssociation, some yearOfBarAdmission⟩ ∧
      l₁.education = some ⟨jsTrim lawSchool, graduationYear⟩ ∧
      l₁.documents = l₀.documents := by
    unfold Lawyer.saveCredentials
    rw [if_neg (by simp [hs₀]), hbar, hedu]
    exact ⟨_, rfl, rfl, rfl, rfl, rfl⟩
  obtain ⟨l₁, hc₁, hs₁, hb₁, he₁, hd₁⟩ := h₁
  have h₂ : ∃ l₂, l₁.saveSpecializations ps ss lids = .ok l₂ ∧
      l₂.onboardingStep = .specializations ∧
      l₂.barCredentials = l₁.barCredentials ∧
      l₂.education = l₁.education ∧
      l₂.documents = l₁.documents ∧
      l₂.specializations =
        ps.map (fun (s : SpecializationInput) =>
          LawyerSpecialization.mk s.id s.yearsOfExperience .primary) ++
        ss.map (fun (s : SpecializationInput) =>
          LawyerSpecialization.mk s.id s.yearsOfExperience .secondary) := by
    unfold Lawyer.saveSpecializations
    rw [if_neg (by simp [hs₁]), if_neg (by omega), if_neg (by omega), if_neg hlids]
    exact ⟨_, rfl, rfl, rfl, rfl, rfl, rfl⟩
  obtain ⟨l₂, hc₂, hs₂, hb₂, he₂, hd₂, hsp₂⟩ := h₂
  have hd₂' : l₂.documents = [] := by rw [hd₂, hd₁, hd₀]
  have hsubmit₀ : l₂.submitForReview =
      .error (.incompleteOnboarding "At least one document is required", l₂) := by
    unfold Lawyer.submitForReview
    rw [if_neg (by simp [hs₂]), if_neg (by simp [hb₂, hb₁, he₂, he₁]),
      if_pos (by simp [hd₂'])]
  have h₃ : ∃ l₃, (l₂.attachDocuments docs).submitForReview = .ok l₃ ∧
      l₃.onboardingStep = .submitted ∧ l₃.profileCompleted = true := by
    unfold Lawyer.attachDocuments Lawyer.submitForReview
    rw [if_neg (by simp [hs₂]), if_neg (by simp [hb₂, hb₁, he₂, he₁]),
      if_neg (by simpa using hdocs), if_neg (by simp [hsp₂]; simpa using hspl)]
    exact ⟨_, rfl, rfl, rfl⟩
  obtain ⟨l₃, hc₃, hs₃, hp₃⟩ := h₃
  exact ⟨l₀, l₁, l₂, l₃, hc₀, hfail l₀ hs₀, hc₁, hc₂, hs₂, hd₂', hsubmit₀, hc₃, hs₃, hp₃⟩

/-- Witness for C1 (amended): the concrete happy path — basic info,
credentials, one specialization with one language — is blocked at
submission while no document is attached, and completes once one is. -/
theorem lawyer_onboarding_sequence_amended_witness :
    ∃ l₀ l₁ l₂ l₃,
      Lawyer.create "lawyer-9" "user-9" "John" none "Smith"
        "john@example.com" "1234567890" "US" = .ok l₀ ∧
      l₀.saveSpecializations [⟨"s1", 3⟩] [] ["en"] =
        .error (.invalidOnboardingStep
          "Cannot save specializations. Complete credentials first.", l₀) ∧
      l₀.saveCredentials 2026 "BAR12345" "New York State Bar" 2015
        "Harvard Law" 2010 none = .ok l₁ ∧
      l₁.saveSpecializations [⟨"s1", 3⟩] [] ["en"] = .ok l₂ ∧
      l₂.onboardingStep = .specializations ∧
      l₂.documents = [] ∧
      l₂.submitForReview =
        .error (.incompleteOnboarding "At least one document is required", l₂) ∧
      (l₂.attachDocuments ["doc-1"]).submitForReview = .ok l₃ ∧
      l₃.onboardingStep = .submitted ∧
      l₃.profileCompleted = true :=
  lawyer_onboarding_sequence_amended "lawyer-9" "user-9" "John" "Smith"
    "john@example.com" "1234567890" "US" none 2026 "BAR12345"
    "New York State Bar" "Harvard Law" 2015 2010 none
    [⟨"s1", 3⟩] [] ["en"] ["doc-1"]
    (by decide) (by decide) (by decide) (by decide) (by decide) (by decide)
    (by decide) (by decide) (by decide) (by decide) (by decide) (by decide)
    (by decide) (by decide)
